import Mathlib

/-!
Shallow embedding of the transformer-oil evaluation engine from `src/app.py`
(threshold classifiers, categorical classifiers, weighted index aggregator,
status resolver, recommendation generator, profile registry), together with
theorems settling the specification claims.

Floats are modelled as exact rationals (`ℚ`); Python dicts are modelled as
association lists with first-match lookup (Python dict keys are unique, and
the code only reads them via membership tests and key lookup).
-/

namespace OilEval

/-- Upper-bound threshold rule (`ThresholdsMax` in `app.py`): larger values are worse. -/
structure ThresholdsMax where
  warn_max : ℚ
  crit_max : ℚ
deriving DecidableEq

/-- Lower-bound threshold rule (`ThresholdsMin` in `app.py`): smaller values are worse. -/
structure ThresholdsMin where
  warn_min : ℚ
  crit_min : ℚ
deriving DecidableEq

/-- `zone_max` from `app.py`: classify a value against an upper-bound rule. -/
def zone_max (value : ℚ) (t : ThresholdsMax) : String × ℚ :=
  if value ≤ t.warn_max then ("Норма", 0)
  else if value ≤ t.crit_max then ("Предупреждение", 0.5)
  else ("Критично", 1)

/-- `zone_min` from `app.py`: classify a value against a lower-bound rule. -/
def zone_min (value : ℚ) (t : ThresholdsMin) : String × ℚ :=
  if value ≥ t.warn_min then ("Норма", 0)
  else if value ≥ t.crit_min then ("Предупреждение", 0.5)
  else ("Критично", 1)

/-- Characters stripped by Python `str.strip()` (the ASCII whitespace subset;
the classifier literals contain none of these). -/
def isPySpace (c : Char) : Bool :=
  c = ' ' || c = '\t' || c = '\n' || c = '\r' || c = Char.ofNat 11 || c = Char.ofNat 12

/-- Python `str.strip()`: drop leading and trailing whitespace. -/
def pyStrip (s : String) : String :=
  String.mk (((s.toList.dropWhile isPySpace).reverse.dropWhile isPySpace).reverse)

/-- Python `str.lower()` on one character, covering the alphabets used by the
classifier literals (ASCII and Cyrillic). -/
def pyLowerChar (c : Char) : Char :=
  if 'A' ≤ c ∧ c ≤ 'Z' then Char.ofNat (c.toNat + 32)
  else if 'А' ≤ c ∧ c ≤ 'Я' then Char.ofNat (c.toNat + 32)
  else if c = 'Ё' then 'ё'
  else c

/-- Python `str.lower()` on a string. -/
def pyLower (s : String) : String :=
  String.mk (s.toList.map pyLowerChar)

/-- `zone_impurities` from `app.py`: categorical classifier for mechanical
impurities; `value or ""` maps a missing (None) value to the empty string. -/
def zone_impurities (value : Option String) : String × ℚ :=
  let v := pyLower (pyStrip (value.getD ""))
  if v = "нет" then ("Норма", 0)
  else if v = "следы" ∨ v = "незначительно" then ("Предупреждение", 0.5)
  else ("Критично", 1)

/-- `zone_water_extract` from `app.py`: categorical classifier for the
water-extract reaction; `value or ""` maps a missing (None) value to the empty string. -/
def zone_water_extract (value : Option String) : String × ℚ :=
  let v := pyLower (pyStrip (value.getD ""))
  if v = "нейтральная" then ("Норма", 0)
  else if v = "слабокислая" ∨ v = "слабокисл." ∨ v = "слабокислая реакция" then
    ("Предупреждение", 0.5)
  else ("Критично", 1)

/-- Round-half-to-even to an integer, as Python `round` does on an exact value. -/
def roundHalfEven (q : ℚ) : ℤ :=
  if q - ⌊q⌋ < 1/2 then ⌊q⌋
  else if 1/2 < q - ⌊q⌋ then ⌊q⌋ + 1
  else if ⌊q⌋ % 2 = 0 then ⌊q⌋ else ⌊q⌋ + 1

/-- Python `round(q, 1)` on an exact value: round-half-to-even at one decimal. -/
def pyRound1 (q : ℚ) : ℚ :=
  (roundHalfEven (q * 10) : ℚ) / 10

/-- One step of the accumulation loop in `compute_index` from `app.py`:
`if k in scores: total += scores[k]*w; wsum += w`. -/
def index_step (scores : List (String × ℚ)) (acc : ℚ × ℚ) (kw : String × ℚ) : ℚ × ℚ :=
  match scores.lookup kw.1 with
  | some s => (acc.1 + s * kw.2, acc.2 + kw.2)
  | none => acc

/-- `compute_index` from `app.py`: weighted aggregation of the per-parameter
penalties into a composite index, iterating over the weight mapping. -/
def compute_index (scores weights : List (String × ℚ)) : ℚ :=
  let tw := weights.foldl (index_step scores) (0, 0)
  if tw.2 = 0 then 0 else pyRound1 ((tw.1 / tw.2) * 100)

/-- Modelled from the spec wording of §4.3 (C4): the sum of `penalty * weight`
over the weight entries whose key is present in the penalty mapping. -/
def specMatchedTotal (scores weights : List (String × ℚ)) : ℚ :=
  ((weights.filter (fun kw => (scores.lookup kw.1).isSome)).map
    (fun kw => (scores.lookup kw.1).getD 0 * kw.2)).sum

/-- Modelled from the spec wording of §4.3 (C4): the sum of the weights whose
key is present in the penalty mapping (the normalizer). -/
def specMatchedWeight (scores weights : List (String × ℚ)) : ℚ :=
  ((weights.filter (fun kw => (scores.lookup kw.1).isSome)).map Prod.snd).sum

/-- `overall_status` from `app.py`: resolve the composite index plus the
any-critical flag into one of three overall statuses. -/
def overall_status (index : ℚ) (any_critical : Bool) : String :=
  if any_critical = true ∨ index ≥ 60 then "КРИТИЧЕСКОЕ"
  else if index ≥ 25 then "ПОГРАНИЧНОЕ"
  else "НОРМА"

/-- The per-parameter zones that `build_recommendations` in `app.py` extracts
from its `rows` argument through the `by_name` index (one field per fixed
Russian row name, in the order the code reads them). -/
structure RowZones where
  moist : String
  bdv : String
  acid : String
  tg : String
  imp : String
  wext : String
  flash : String
deriving DecidableEq

/-- The fallback recommendation appended by `build_recommendations` when no rule fires. -/
def FALLBACK_REC : String :=
  "Параметры в пределах нормы. Продолжать эксплуатацию согласно регламенту, выполнять плановый контроль."

/-- `build_recommendations` from `app.py`: the fixed rule table over the
per-parameter zones, with the fallback entry when no rule fires. -/
def build_recommendations (r : RowZones) : List String :=
  let rec1 :=
    if r.moist = "Критично" ∨ r.bdv = "Критично" then
      ["Срочно выполнить сушку/дегазацию и фильтрацию масла (приоритет: высокий).",
       "Проверить герметичность трансформатора и состояние дыхательной системы/адсорбента.",
       "Повторить измерение пробивного напряжения после обработки масла."]
    else []
  let rec2 :=
    if r.imp = "Критично" then
      ["Выполнить фильтрацию для удаления механических примесей; оценить возможный источник загрязнения."]
    else []
  let rec3 :=
    if (r.acid = "Предупреждение" ∨ r.acid = "Критично") ∨
       (r.tg = "Предупреждение" ∨ r.tg = "Критично") ∨
       (r.wext = "Предупреждение" ∨ r.wext = "Критично") then
      ["Рассмотреть регенерацию масла или частичную/полную замену при подтверждении устойчивого роста параметров старения.",
       "Рекомендуется контроль повторной пробы в ближайшие 2-4 недели (или по регламенту предприятия)."]
    else []
  let rec4 :=
    if r.flash = "Предупреждение" ∨ r.flash = "Критично" then
      ["Проверить пожаробезопасные характеристики масла; при снижении ниже нормы рассмотреть замену."]
    else []
  let recs := rec1 ++ rec2 ++ rec3 ++ rec4
  if recs = [] then [FALLBACK_REC] else recs

/-- A zone string produced by the classifiers (three-valued). -/
def validZone (z : String) : Prop :=
  z = "Норма" ∨ z = "Предупреждение" ∨ z = "Критично"

/-- `WEIGHTS_BASE` from `app.py`, in source order. -/
def WEIGHTS_BASE : List (String × ℚ) :=
  [("moisture_ppm", 0.25), ("bdv_kv", 0.25), ("acid_mgkoh_g", 0.15),
   ("tgdelta_pct", 0.15), ("flash_c", 0.10), ("impurities", 0.05), ("water_extract", 0.05)]

/-- The penalty mapping produced when all seven parameters classify as Warning
(penalty 0.5), keyed and ordered as `evaluate` in `app.py` fills `scores`. -/
def ALL_WARNING_SCORES : List (String × ℚ) :=
  [("moisture_ppm", 0.5), ("bdv_kv", 0.5), ("acid_mgkoh_g", 0.5),
   ("tgdelta_pct", 0.5), ("flash_c", 0.5), ("impurities", 0.5), ("water_extract", 0.5)]

/-- A profile's threshold set: `TH_6_35` / `TH_110` / `TH_220_330` in `app.py`. -/
structure ThSet where
  bdv_kv : ThresholdsMin
  flash_c : ThresholdsMin
  moisture_ppm : ThresholdsMax
  acid_mgkoh_g : ThresholdsMax
  tgdelta_pct : ThresholdsMax
deriving DecidableEq

/-- `TH_6_35` from `app.py`. -/
def TH_6_35 : ThSet :=
  ⟨⟨30.0, 25.0⟩, ⟨140.0, 135.0⟩, ⟨20.0, 30.0⟩, ⟨0.10, 0.20⟩, ⟨1.5, 2.5⟩⟩

/-- `TH_110` from `app.py`. -/
def TH_110 : ThSet :=
  ⟨⟨40.0, 35.0⟩, ⟨140.0, 135.0⟩, ⟨15.0, 25.0⟩, ⟨0.08, 0.15⟩, ⟨1.0, 2.0⟩⟩

/-- `TH_220_330` from `app.py`. -/
def TH_220_330 : ThSet :=
  ⟨⟨50.0, 45.0⟩, ⟨140.0, 135.0⟩, ⟨10.0, 20.0⟩, ⟨0.05, 0.10⟩, ⟨0.8, 1.5⟩⟩

/-- A voltage-class profile: name, source citation, thresholds, weights. -/
structure Profile where
  name : String
  src : String
  TH : ThSet
  WEIGHTS : List (String × ℚ)
deriving DecidableEq

/-- The `PWR_6_35` profile from `app.py`. -/
def PROFILE_PWR_6_35 : Profile :=
  ⟨"Силовой трансформатор 6-35 кВ",
   "IEC 60422 (упрощенная модель для MVP), отраслевые практики", TH_6_35, WEIGHTS_BASE⟩

/-- The `PWR_110` profile from `app.py`. -/
def PROFILE_PWR_110 : Profile :=
  ⟨"Силовой трансформатор 110 кВ",
   "IEC 60422 (упрощенная модель для MVP), отраслевые практики", TH_110, WEIGHTS_BASE⟩

/-- The `PWR_220_330` profile from `app.py`. -/
def PROFILE_PWR_220_330 : Profile :=
  ⟨"Силовой трансформатор 220-330 кВ",
   "IEC 60422 (упрощенная модель для MVP), отраслевые практики", TH_220_330, WEIGHTS_BASE⟩

/-- `PROFILES` from `app.py`, in source order. -/
def PROFILES : List (String × Profile) :=
  [("PWR_6_35", PROFILE_PWR_6_35), ("PWR_110", PROFILE_PWR_110),
   ("PWR_220_330", PROFILE_PWR_220_330)]

/-- Profile resolution in `evaluate` from `app.py`:
`PROFILES.get(profile_id) or PROFILES["PWR_110"]` (every registered profile is a
non-empty dict, hence truthy, so `or` only fires when `get` returns None). -/
def resolve_profile (profile_id : String) : Profile :=
  (PROFILES.lookup profile_id).getD PROFILE_PWR_110

end OilEval

namespace OilEval

/-- C1: Numeric zone classification. For an upper-bound rule (with the data-model
invariant `warn_max < crit_max`): `value ≤ warn_max` gives Normal with penalty 0,
`warn_max < value ≤ crit_max` gives Warning with penalty 0.5, and `value > crit_max`
gives Critical with penalty 1. Symmetrically for a lower-bound rule (invariant
`crit_min < warn_min`): `value ≥ warn_min` is Normal, `crit_min ≤ value < warn_min`
is Warning, `value < crit_min` is Critical. Boundary values (`value = warn_max`,
`crit_max`, `warn_min`, `crit_min`) fall in the better adjacent zone because the
comparisons are inclusive. -/
theorem zone_classification_correct (value : ℚ) (tmax : ThresholdsMax) (tmin : ThresholdsMin)
    (hmax : tmax.warn_max < tmax.crit_max) (hmin : tmin.crit_min < tmin.warn_min) :
    (value ≤ tmax.warn_max → zone_max value tmax = ("Норма", 0)) ∧
    (tmax.warn_max < value ∧ value ≤ tmax.crit_max →
      zone_max value tmax = ("Предупреждение", 0.5)) ∧
    (tmax.crit_max < value → zone_max value tmax = ("Критично", 1)) ∧
    (tmin.warn_min ≤ value → zone_min value tmin = ("Норма", 0)) ∧
    (tmin.crit_min ≤ value ∧ value < tmin.warn_min →
      zone_min value tmin = ("Предупреждение", 0.5)) ∧
    (value < tmin.crit_min → zone_min value tmin = ("Критично", 1)) := by
  refine ⟨?_, ?_, ?_, ?_, ?_, ?_⟩
  · intro h
    simp [zone_max, h]
  · rintro ⟨h1, h2⟩
    rw [zone_max, if_neg (by linarith), if_pos h2]
  · intro h
    rw [zone_max, if_neg (by linarith), if_neg (by linarith)]
  · intro h
    simp [zone_min, h]
  · rintro ⟨h1, h2⟩
    rw [zone_min, if_neg (by simp; linarith), if_pos (by simpa using h1)]
  · intro h
    rw [zone_min, if_neg (by simp; linarith), if_neg (by simp; linarith)]

/-- C2: Status resolution. The resolved status is Critical exactly when
`any_critical` is true or the index is at least 60; otherwise Borderline exactly
when the index is at least 25; otherwise Normal. In particular `any_critical`
forces Critical for every index value. -/
theorem overall_status_correct (index : ℚ) (any_critical : Bool) :
    (overall_status index any_critical = "КРИТИЧЕСКОЕ" ↔
      (any_critical = true ∨ 60 ≤ index)) ∧
    (overall_status index any_critical = "ПОГРАНИЧНОЕ" ↔
      (¬(any_critical = true ∨ 60 ≤ index) ∧ 25 ≤ index)) ∧
    (overall_status index any_critical = "НОРМА" ↔
      (¬(any_critical = true ∨ 60 ≤ index) ∧ index < 25)) ∧
    (any_critical = true → overall_status index any_critical = "КРИТИЧЕСКОЕ") := by
  unfold overall_status
  split_ifs with h1 h2 <;>
    refine ⟨?_, ?_, ?_, ?_⟩ <;> simp_all

/-- C2 witness: a critical parameter forces Critical status even at index 0. -/
theorem overall_status_correct_witness :
    overall_status 0 true = "КРИТИЧЕСКОЕ" :=
  (overall_status_correct 0 true).2.2.2 rfl

/-- C5: Categorical classification first strips whitespace and lowercases the
value; the Normal literal maps to Normal with penalty 0, the Warning literals to
Warning with penalty 0.5, and every other value — including the empty string —
to Critical with penalty 1 (fail-closed). -/
theorem categorical_classification_correct (s : String) :
    (zone_impurities (some s) = ("Норма", 0) ↔ pyLower (pyStrip s) = "нет") ∧
    (zone_impurities (some s) = ("Предупреждение", 0.5) ↔
      (pyLower (pyStrip s) = "следы" ∨ pyLower (pyStrip s) = "незначительно")) ∧
    (pyLower (pyStrip s) ≠ "нет" → pyLower (pyStrip s) ≠ "следы" →
      pyLower (pyStrip s) ≠ "незначительно" →
      zone_impurities (some s) = ("Критично", 1)) ∧
    (zone_water_extract (some s) = ("Норма", 0) ↔
      pyLower (pyStrip s) = "нейтральная") ∧
    (zone_water_extract (some s) = ("Предупреждение", 0.5) ↔
      (pyLower (pyStrip s) = "слабокислая" ∨ pyLower (pyStrip s) = "слабокисл." ∨
        pyLower (pyStrip s) = "слабокислая реакция")) ∧
    (pyLower (pyStrip s) ≠ "нейтральная" → pyLower (pyStrip s) ≠ "слабокислая" →
      pyLower (pyStrip s) ≠ "слабокисл." → pyLower (pyStrip s) ≠ "слабокислая реакция" →
      zone_water_extract (some s) = ("Критично", 1)) ∧
    zone_impurities (some "") = ("Критично", 1) ∧
    zone_water_extract (some "") = ("Критично", 1) := by
  have h0 : pyLower (pyStrip "") = "" := rfl
  unfold zone_impurities zone_water_extract
  simp only [Option.getD_some]
  refine ⟨?_, ?_, ?_, ?_, ?_, ?_, ?_, ?_⟩
  · split_ifs <;> simp_all
  · split_ifs <;> simp_all
  · split_ifs <;> tauto
  · split_ifs <;> simp_all
  · split_ifs <;> simp_all
  · split_ifs <;> tauto
  · simp [h0]
  · simp [h0]

/-- C5 witness: an unrecognized impurities literal and an uppercase, padded
water-extract literal normalize as the claim states. -/
theorem categorical_classification_correct_witness :
    zone_impurities (some "вода") = ("Критично", 1) ∧
    zone_water_extract (some " НЕЙТРАЛЬНАЯ ") = ("Норма", 0) := by
  refine ⟨?_, ?_⟩
  · exact (categorical_classification_correct "вода").2.2.1
      (by decide) (by decide) (by decide)
  · exact (categorical_classification_correct " НЕЙТРАЛЬНАЯ ").2.2.2.1.mpr (by decide)

/-- C10: Categorical classifiers are total on absent input: a missing (None)
value is classified Critical with penalty 1 by both classifiers, the same
fail-closed result as the empty string. -/
theorem categorical_none_fail_closed :
    zone_impurities none = ("Критично", 1) ∧
    zone_water_extract none = ("Критично", 1) ∧
    zone_impurities none = zone_impurities (some "") ∧
    zone_water_extract none = zone_water_extract (some "") :=
  ⟨rfl, rfl, rfl, rfl⟩

/-- C8: With the base weight set (which sums to 1) and all seven parameters in
the Warning zone (penalty 0.5 each, no critical parameter), the composite index
is exactly 50.0 and the resolved status is Borderline, not Critical. -/
theorem base_weights_all_warning_index :
    (WEIGHTS_BASE.map Prod.snd).sum = 1 ∧
    compute_index ALL_WARNING_SCORES WEIGHTS_BASE = 50 ∧
    overall_status (compute_index ALL_WARNING_SCORES WEIGHTS_BASE) false = "ПОГРАНИЧНОЕ" ∧
    overall_status (compute_index ALL_WARNING_SCORES WEIGHTS_BASE) false ≠ "КРИТИЧЕСКОЕ" := by
  have h50 : compute_index ALL_WARNING_SCORES WEIGHTS_BASE = 50 := by
    simp only [compute_index, index_step, List.foldl, List.lookup, String.reduceBEq,
      ALL_WARNING_SCORES, WEIGHTS_BASE]
    norm_num [pyRound1, roundHalfEven, Int.floor_eq_iff]
  refine ⟨by norm_num [WEIGHTS_BASE], h50, ?_, ?_⟩
  · rw [h50]
    norm_num [overall_status]
  · rw [h50]
    norm_num [overall_status]
    decide

theorem roundHalfEven_le (q : ℚ) : roundHalfEven q ≤ ⌊q⌋ + 1 := by
  unfold roundHalfEven
  split_ifs <;> omega

theorem le_roundHalfEven (q : ℚ) : ⌊q⌋ ≤ roundHalfEven q := by
  unfold roundHalfEven
  split_ifs <;> omega

theorem roundHalfEven_mono {a b : ℚ} (h : a ≤ b) : roundHalfEven a ≤ roundHalfEven b := by
  have hf : ⌊a⌋ ≤ ⌊b⌋ := Int.floor_le_floor h
  rcases eq_or_lt_of_le hf with heq | hlt
  · have hc : a - (⌊a⌋:ℚ) ≤ b - (⌊a⌋:ℚ) := by linarith
    unfold roundHalfEven
    rw [← heq]
    split_ifs <;> first | omega | (exfalso; linarith)
  · calc roundHalfEven a ≤ ⌊a⌋ + 1 := roundHalfEven_le a
      _ ≤ ⌊b⌋ := by omega
      _ ≤ roundHalfEven b := le_roundHalfEven b

theorem pyRound1_mono {a b : ℚ} (h : a ≤ b) : pyRound1 a ≤ pyRound1 b := by
  unfold pyRound1
  have h10 : a * 10 ≤ b * 10 := by linarith
  have h2 := roundHalfEven_mono h10
  have hc : ((roundHalfEven (a * 10) : ℤ) : ℚ) ≤ ((roundHalfEven (b * 10) : ℤ) : ℚ) := by
    exact_mod_cast h2
  linarith

theorem foldl_index_step (scores : List (String × ℚ)) (weights : List (String × ℚ)) :
    ∀ t w : ℚ, weights.foldl (index_step scores) (t, w) =
      (t + specMatchedTotal scores weights, w + specMatchedWeight scores weights) := by
  induction weights with
  | nil =>
    intro t w
    simp [specMatchedTotal, specMatchedWeight]
  | cons kw ws ih =>
    intro t w
    simp only [List.foldl_cons]
    cases hl : scores.lookup kw.1 with
    | some s =>
      rw [show index_step scores (t, w) kw = (t + s * kw.2, w + kw.2) by
        simp [index_step, hl]]
      rw [ih]
      simp [specMatchedTotal, specMatchedWeight, List.filter_cons, hl]
      constructor <;> ring
    | none =>
      rw [show index_step scores (t, w) kw = (t, w) by simp [index_step, hl]]
      rw [ih]
      simp [specMatchedTotal, specMatchedWeight, List.filter_cons, hl]

theorem compute_index_eq (scores weights : List (String × ℚ)) :
    compute_index scores weights =
      if specMatchedWeight scores weights = 0 then 0
      else pyRound1
        ((specMatchedTotal scores weights / specMatchedWeight scores weights) * 100) := by
  unfold compute_index
  rw [foldl_index_step]
  simp

theorem lookup_eq_of_perm {l₁ l₂ : List (String × ℚ)} (hp : l₁.Perm l₂) :
    (l₁.map Prod.fst).Nodup → ∀ k, l₁.lookup k = l₂.lookup k := by
  induction hp with
  | nil =>
    intro _ k
    rfl
  | cons x p ih =>
    intro hnd k
    obtain ⟨x1, x2⟩ := x
    simp only [List.map_cons, List.nodup_cons] at hnd
    cases hbeq : k == x1 <;> simp [List.lookup, hbeq]
    · exact ih hnd.2 k
  | swap x y l =>
    intro hnd k
    obtain ⟨x1, x2⟩ := x
    obtain ⟨y1, y2⟩ := y
    simp only [List.map_cons, List.nodup_cons, List.mem_cons] at hnd
    have hxy : y1 ≠ x1 := fun h => hnd.1 (Or.inl h)
    simp only [List.lookup]
    cases hk1 : k == y1 <;> cases hk2 : k == x1 <;> simp_all
  | trans p₁ p₂ ih₁ ih₂ =>
    intro hnd k
    rw [ih₁ hnd k, ih₂ ((p₁.map Prod.fst).nodup_iff.mp hnd) k]

theorem compute_index_congr {s₁ s₂ : List (String × ℚ)}
    (h : ∀ k, s₁.lookup k = s₂.lookup k) (w : List (String × ℚ)) :
    compute_index s₁ w = compute_index s₂ w := by
  have hstep : index_step s₁ = index_step s₂ := by
    funext acc kw
    unfold index_step
    rw [h kw.1]
  unfold compute_index
  rw [hstep]

theorem compute_index_weights_perm (s : List (String × ℚ)) {w₁ w₂ : List (String × ℚ)}
    (hw : w₁.Perm w₂) : compute_index s w₁ = compute_index s w₂ := by
  rw [compute_index_eq, compute_index_eq]
  have hf : (w₁.filter (fun kw => (s.lookup kw.1).isSome)).Perm
      (w₂.filter (fun kw => (s.lookup kw.1).isSome)) := hw.filter _
  have ht : specMatchedTotal s w₁ = specMatchedTotal s w₂ := by
    unfold specMatchedTotal
    exact (hf.map _).sum_eq
  have hW : specMatchedWeight s w₁ = specMatchedWeight s w₂ := by
    unfold specMatchedWeight
    exact (hf.map _).sum_eq
  rw [ht, hW]

/-- C6: The composite index is independent of iteration order: permuting the
penalty mapping (with its keys unique, as in a Python dict) and permuting the
weight mapping leaves `compute_index` unchanged; it depends only on the matched
(penalty, weight) associations. -/
theorem compute_index_order_invariant (s₁ s₂ w₁ w₂ : List (String × ℚ))
    (hs : s₁.Perm s₂) (hnd : (s₁.map Prod.fst).Nodup) (hw : w₁.Perm w₂) :
    compute_index s₁ w₁ = compute_index s₂ w₂ := by
  rw [compute_index_congr (lookup_eq_of_perm hs hnd) w₁]
  exact compute_index_weights_perm s₂ hw

/-- C6 witness: swapping the two entries of both mappings leaves the index unchanged. -/
theorem compute_index_order_invariant_witness :
    compute_index [("a", 1), ("b", 0)] [("a", 1), ("b", 1)] =
      compute_index [("b", 0), ("a", 1)] [("b", 1), ("a", 1)] :=
  compute_index_order_invariant _ _ _ _ (List.Perm.swap ("b", 0) ("a", 1) [])
    (by decide) (List.Perm.swap ("b", 1) ("a", 1) [])

/-- C4: The composite index equals `round(100 * total / normalizer, 1)` where
`total` sums `penalty * weight` over the keys present in both mappings and
`normalizer` sums the weights over those same keys; when no key is matched the
normalizer is zero and the result is exactly 0, not an error. -/
theorem compute_index_formula (scores weights : List (String × ℚ)) :
    (compute_index scores weights =
      if specMatchedWeight scores weights = 0 then 0
      else pyRound1
        (100 * specMatchedTotal scores weights / specMatchedWeight scores weights)) ∧
    ((∀ kw ∈ weights, scores.lookup kw.1 = none) → compute_index scores weights = 0) := by
  constructor
  · rw [compute_index_eq]
    by_cases h0 : specMatchedWeight scores weights = 0
    · simp [h0]
    · simp only [h0, if_false]
      congr 1
      ring
  · intro h
    rw [compute_index_eq]
    have hfil : weights.filter (fun kw => (scores.lookup kw.1).isSome) = [] := by
      rw [List.filter_eq_nil_iff]
      intro a ha
      simp [h a ha]
    have hW : specMatchedWeight scores weights = 0 := by
      unfold specMatchedWeight
      rw [hfil]
      simp
    simp [hW]

/-- C4 witness: with disjoint key sets the normalizer is zero and the index is 0. -/
theorem compute_index_formula_witness :
    compute_index [("x", 1)] [("y", 2)] = 0 :=
  (compute_index_formula [("x", 1)] [("y", 2)]).2 (by decide)

/-- C9: The composite index is monotone in the penalties: with non-negative
weights and two penalty mappings over the same keys, pointwise larger penalties
give a composite index at least as large. -/
theorem compute_index_monotone (s₁ s₂ w : List (String × ℚ))
    (hw : ∀ kw ∈ w, 0 ≤ kw.2)
    (hdom : ∀ k, (s₁.lookup k).isSome = (s₂.lookup k).isSome)
    (hle : ∀ k v₁ v₂, s₁.lookup k = some v₁ → s₂.lookup k = some v₂ → v₁ ≤ v₂) :
    compute_index s₁ w ≤ compute_index s₂ w := by
  rw [compute_index_eq, compute_index_eq]
  have hfil : w.filter (fun kw => ((s₁.lookup kw.1).isSome : Bool)) =
      w.filter (fun kw => ((s₂.lookup kw.1).isSome : Bool)) := by
    apply List.filter_congr
    intro kw _
    rw [hdom]
  have hW : specMatchedWeight s₁ w = specMatchedWeight s₂ w := by
    unfold specMatchedWeight
    rw [hfil]
  have hWnn : 0 ≤ specMatchedWeight s₂ w := by
    unfold specMatchedWeight
    apply List.sum_nonneg
    intro x hx
    obtain ⟨kw, hkw, rfl⟩ := List.mem_map.mp hx
    exact hw kw (List.mem_of_mem_filter hkw)
  have hT : specMatchedTotal s₁ w ≤ specMatchedTotal s₂ w := by
    unfold specMatchedTotal
    rw [hfil]
    apply List.sum_le_sum
    intro kw hkw
    have h2 : (s₂.lookup kw.1).isSome := by
      have hmem := List.of_mem_filter hkw
      simpa using hmem
    obtain ⟨v₂, hv₂⟩ := Option.isSome_iff_exists.mp h2
    have h1 : (s₁.lookup kw.1).isSome := by
      rw [hdom]
      exact h2
    obtain ⟨v₁, hv₁⟩ := Option.isSome_iff_exists.mp h1
    rw [hv₁, hv₂]
    simp only [Option.getD_some]
    exact mul_le_mul_of_nonneg_right (hle kw.1 v₁ v₂ hv₁ hv₂)
      (hw kw (List.mem_of_mem_filter hkw))
  rw [hW]
  by_cases h0 : specMatchedWeight s₂ w = 0
  · simp [h0]
  · simp only [h0, if_false]
    apply pyRound1_mono
    apply mul_le_mul_of_nonneg_right _ (by norm_num : (0:ℚ) ≤ 100)
    rw [div_eq_mul_inv, div_eq_mul_inv]
    exact mul_le_mul_of_nonneg_right hT (inv_nonneg.mpr hWnn)

/-- C9 witness: raising the single matched penalty from 0 to 1 cannot lower the index. -/
theorem compute_index_monotone_witness :
    compute_index [("moisture_ppm", 0)] [("moisture_ppm", 1/4)] ≤
      compute_index [("moisture_ppm", 1)] [("moisture_ppm", 1/4)] := by
  apply compute_index_monotone
  · intro kw hkw
    simp only [List.mem_singleton] at hkw
    subst hkw
    norm_num
  · intro k
    by_cases hk : k = "moisture_ppm"
    · subst hk
      simp [List.lookup]
    · have hb : (k == "moisture_ppm") = false := beq_eq_false_iff_ne.mpr hk
      simp [List.lookup, hb]
  · intro k v₁ v₂ h₁ h₂
    by_cases hk : k = "moisture_ppm"
    · subst hk
      simp [List.lookup] at h₁ h₂
      rw [← h₁, ← h₂]
      norm_num
    · have hb : (k == "moisture_ppm") = false := beq_eq_false_iff_ne.mpr hk
      simp [List.lookup, hb] at h₁

theorem mem_fallback_iff (r : RowZones) :
    FALLBACK_REC ∈ build_recommendations r ↔
      (¬(r.moist = "Критично" ∨ r.bdv = "Критично") ∧ ¬(r.imp = "Критично") ∧
       ¬((r.acid = "Предупреждение" ∨ r.acid = "Критично") ∨
         (r.tg = "Предупреждение" ∨ r.tg = "Критично") ∨
         (r.wext = "Предупреждение" ∨ r.wext = "Критично")) ∧
       ¬(r.flash = "Предупреждение" ∨ r.flash = "Критично")) := by
  simp only [build_recommendations]
  split_ifs with h1 h2 h3 h4 <;> simp_all [FALLBACK_REC]

theorem validZone_norm_iff {z : String} (h : validZone z) :
    (z ≠ "Предупреждение" ∧ z ≠ "Критично") ↔ z = "Норма" := by
  rcases h with h | h | h <;> subst h <;> simp

theorem build_recommendations_ne_nil (r : RowZones) : build_recommendations r ≠ [] := by
  simp only [build_recommendations]
  split_ifs <;> simp_all [FALLBACK_REC]

/-- C3 counterexample: with moisture in the Warning zone and every other zone
Normal, no rule fires, so the fallback entry is present even though not every
zone is Normal — refuting the claimed equivalence in the right-to-left
direction at this concrete input. -/
theorem recommendations_fallback_counterexample :
    FALLBACK_REC ∈ build_recommendations
      (RowZones.mk "Предупреждение" "Норма" "Норма" "Норма" "Норма" "Норма" "Норма") ∧
    (RowZones.mk "Предупреждение" "Норма" "Норма" "Норма" "Норма" "Норма" "Норма").moist
      ≠ "Норма" := by
  refine ⟨(mem_fallback_iff _).mpr ?_, by simp⟩
  simp

/-- C3 (amended): over the three-valued zones, the recommendation list contains
the fallback entry iff none of moisture, breakdown voltage, impurities is
Critical and each of acidity, dielectric loss, water-extract, flash point is
Normal (moisture, breakdown voltage and impurities in the Warning zone fire no
rule, so the fallback also appears then); when the fallback is present it is
the only entry, and the list is never empty. -/
theorem recommendations_fallback_amended (r : RowZones)
    (_hm : validZone r.moist) (_hb : validZone r.bdv) (ha : validZone r.acid)
    (ht : validZone r.tg) (_hi : validZone r.imp) (hwx : validZone r.wext)
    (hf : validZone r.flash) :
    (FALLBACK_REC ∈ build_recommendations r ↔
      (r.moist ≠ "Критично" ∧ r.bdv ≠ "Критично" ∧ r.imp ≠ "Критично" ∧
       r.acid = "Норма" ∧ r.tg = "Норма" ∧ r.wext = "Норма" ∧ r.flash = "Норма")) ∧
    (FALLBACK_REC ∈ build_recommendations r → build_recommendations r = [FALLBACK_REC]) ∧
    build_recommendations r ≠ [] := by
  refine ⟨?_, ?_, build_recommendations_ne_nil r⟩
  · rw [mem_fallback_iff]
    constructor
    · rintro ⟨h1, h2, h3, h4⟩
      rw [not_or] at h1
      rw [not_or] at h3
      obtain ⟨hA, hBC⟩ := h3
      rw [not_or] at hBC
      obtain ⟨hB, hC⟩ := hBC
      rw [not_or] at hA hB hC h4
      exact ⟨h1.1, h1.2, h2, (validZone_norm_iff ha).mp hA, (validZone_norm_iff ht).mp hB,
        (validZone_norm_iff hwx).mp hC, (validZone_norm_iff hf).mp h4⟩
    · rintro ⟨hm1, hb1, hi1, ha1, ht1, hw1, hf1⟩
      exact ⟨by simp [hm1, hb1], hi1, by simp [ha1, ht1, hw1], by simp [hf1]⟩
  · intro hmem
    have hcond := (mem_fallback_iff r).mp hmem
    simp only [build_recommendations]
    rw [if_neg hcond.1, if_neg hcond.2.1, if_neg hcond.2.2.1, if_neg hcond.2.2.2]
    simp

/-- C3 witness: with all seven zones Normal the fallback is present and is the
only recommendation. -/
theorem recommendations_fallback_amended_witness :
    FALLBACK_REC ∈ build_recommendations
      (RowZones.mk "Норма" "Норма" "Норма" "Норма" "Норма" "Норма" "Норма") ∧
    build_recommendations (RowZones.mk "Норма" "Норма" "Норма" "Норма" "Норма" "Норма" "Норма")
      = [FALLBACK_REC] := by
  have h := recommendations_fallback_amended
    (RowZones.mk "Норма" "Норма" "Норма" "Норма" "Норма" "Норма" "Норма")
    (Or.inl rfl) (Or.inl rfl) (Or.inl rfl) (Or.inl rfl) (Or.inl rfl) (Or.inl rfl) (Or.inl rfl)
  have hmem := h.1.mpr (by simp)
  exact ⟨hmem, h.2.1 hmem⟩

/-- C7: Profile resolution is total and never fails: an identifier registered
in `PROFILES` resolves to its profile, and every other identifier — the empty
string included — resolves to the default `PWR_110` profile (the 110 kV
profile). -/
theorem resolve_profile_total (pid : String) :
    (∀ p, PROFILES.lookup pid = some p → resolve_profile pid = p) ∧
    (PROFILES.lookup pid = none → resolve_profile pid = PROFILE_PWR_110) ∧
    resolve_profile "" = PROFILE_PWR_110 ∧
    PROFILE_PWR_110.name = "Силовой трансформатор 110 кВ" := by
  refine ⟨?_, ?_, rfl, rfl⟩
  · intro p hp
    unfold resolve_profile
    rw [hp]
    rfl
  · intro hp
    unfold resolve_profile
    rw [hp]
    rfl

/-- C7 witness: a registered identifier resolves to its own profile. -/
theorem resolve_profile_total_witness :
    resolve_profile "PWR_220_330" = PROFILE_PWR_220_330 :=
  (resolve_profile_total "PWR_220_330").1 PROFILE_PWR_220_330 rfl

/-- C1 witness: concrete instantiation with the 110 kV moisture rule
(`warn_max = 15`, `crit_max = 25`) and the 110 kV breakdown-voltage rule
(`warn_min = 40`, `crit_min = 35`) at `value = 20`. -/
theorem zone_classification_correct_witness :
    zone_max 20 ⟨15, 25⟩ = ("Предупреждение", 0.5) ∧ zone_min 20 ⟨40, 35⟩ = ("Критично", 1) := by
  have h := zone_classification_correct 20 ⟨15, 25⟩ ⟨40, 35⟩ (by norm_num) (by norm_num)
  exact ⟨h.2.1 (by norm_num), h.2.2.2.2.2 (by norm_num)⟩

end OilEval
